import Mathlib

/-!
Verification of the AI-Voice-agent frontend core: the reconnecting WebSocket
transport (`src/frontend/utils/ws.ts`, class `WebSocketService`) and the audio
capture/VAD/playback pipeline (class `AudioProcessor`, whose source is embedded
in `src/frontend/README.md`).

The embedding models JavaScript numbers used for audio samples and times as
rationals (`ℚ`), byte buffers (`ArrayBuffer` / `Uint8Array`) as `List Nat`
with values below 256, JS strings as `List Char` or `String`, and the
browser's single-threaded event loop as explicit event traces consumed by a
step function.
-/

/-! Section: base64 codec (`atob` / `btoa` and `WebSocketService.base64ToArrayBuffer` /
`arrayBufferToBase64`).

`atob`/`btoa` are host primitives; they are modelled by the standard base64
alphabet with `=` padding.  A JS "binary string" (one char per byte,
char codes < 256) is modelled directly as the list of its char codes, so
`String.fromCharCode` / `charCodeAt` used by the two converters are the
identity on the model. -/

/-- The 64-character base64 alphabet, in index order. -/
def b64Alphabet : List Char :=
  ['A', 'B', 'C', 'D', 'E', 'F', 'G', 'H', 'I', 'J', 'K', 'L', 'M',
   'N', 'O', 'P', 'Q', 'R', 'S', 'T', 'U', 'V', 'W', 'X', 'Y', 'Z',
   'a', 'b', 'c', 'd', 'e', 'f', 'g', 'h', 'i', 'j', 'k', 'l', 'm',
   'n', 'o', 'p', 'q', 'r', 's', 't', 'u', 'v', 'w', 'x', 'y', 'z',
   '0', '1', '2', '3', '4', '5', '6', '7', '8', '9', '+', '/']

/-- Character for a six-bit group. -/
def sextetToChar (n : Nat) : Char := b64Alphabet.getD n '='

/-- Index of a character in the base64 alphabet, `none` for invalid input. -/
def charToSextet (c : Char) : Option Nat := b64Alphabet.findIdx? (· == c)

/-- Base64 encoding of a byte sequence (the output of `btoa` on the binary
string holding those byte values). -/
def b64encode : List Nat → List Char
  | [] => []
  | [b1] =>
      [sextetToChar (b1 / 4), sextetToChar (b1 % 4 * 16), '=', '=']
  | [b1, b2] =>
      [sextetToChar (b1 / 4), sextetToChar (b1 % 4 * 16 + b2 / 16),
       sextetToChar (b2 % 16 * 4), '=']
  | b1 :: b2 :: b3 :: rest =>
      sextetToChar (b1 / 4) :: sextetToChar (b1 % 4 * 16 + b2 / 16) ::
      sextetToChar (b2 % 16 * 4 + b3 / 64) :: sextetToChar (b3 % 64) ::
      b64encode rest

/-- Base64 decoding to byte values; `none` models `atob` throwing
`InvalidCharacterError` on malformed input. -/
def b64decode : List Char → Option (List Nat)
  | [] => some []
  | c1 :: c2 :: c3 :: c4 :: rest => do
      let s1 ← charToSextet c1
      let s2 ← charToSextet c2
      if c3 = '=' ∧ c4 = '=' ∧ rest = [] then
        some [s1 * 4 + s2 / 16]
      else if c4 = '=' ∧ rest = [] then do
        let s3 ← charToSextet c3
        some [s1 * 4 + s2 / 16, s2 % 16 * 16 + s3 / 4]
      else do
        let s3 ← charToSextet c3
        let s4 ← charToSextet c4
        let tail ← b64decode rest
        some ((s1 * 4 + s2 / 16) :: (s2 % 16 * 16 + s3 / 4) :: (s3 % 4 * 64 + s4) :: tail)
  | _ => none

/-- Model of `btoa(binaryString)`: throws (`none`) when some char code exceeds 255. -/
def btoaModel (binary : List Nat) : Option (List Char) :=
  if binary.all (· < 256) then some (b64encode binary) else none

/-- Model of `atob(base64)` returning the char codes of the decoded binary string. -/
def atobModel (s : List Char) : Option (List Nat) := b64decode s

/-- Method `WebSocketService.base64ToArrayBuffer`: decodes the base64 string with
`atob`, then copies each char code into a `Uint8Array`.  Char codes of the
decoded binary string are exactly the bytes, so this is `atob` on the model;
`none` means `atob` threw (an exception the caller catches). -/
def base64ToArrayBuffer (base64 : List Char) : Option (List Nat) := atobModel base64

/-- Method `WebSocketService.arrayBufferToBase64`: builds the binary string from the
bytes with `String.fromCharCode` and applies `btoa`. -/
def arrayBufferToBase64 (buffer : List Nat) : Option (List Char) := btoaModel buffer

/-- Method `WebSocketService.handleMessage` on a native binary frame: the payload is
handed to `onAudioReceived` unchanged.  `some` carries the bytes the audio
sink receives. -/
def handleBinaryFrame (bytes : List Nat) : Option (List Nat) := some bytes

/-- Method `WebSocketService.handleMessage` on a JSON envelope of `type: "audio"`
whose `data` field holds the given base64 string.  The source guards with the
JS truthiness test `if (message.data)`, so an empty string skips the sink;
otherwise `base64ToArrayBuffer` decodes and `onAudioReceived` is invoked
(`none` also results when `atob` throws and the outer catch swallows it). -/
def handleJsonAudio (data : List Char) : Option (List Nat) :=
  if data = [] then none
  else base64ToArrayBuffer data

/-! Section: PCM conversion (`AudioProcessor.floatTo16BitPCM`).

Samples are modelled as rationals.  Assigning a JS number to an `Int16Array`
element truncates toward zero and wraps modulo 2^16 into the signed range. -/

/-- Clamp step `Math.max(-1, Math.min(1, input[i]))`. -/
def clampSample (x : ℚ) : ℚ := max (-1) (min 1 x)

/-- Scale step `sample < 0 ? sample * 0x8000 : sample * 0x7fff`. -/
def scaleSample (s : ℚ) : ℚ := if s < 0 then s * 32768 else s * 32767

/-- Truncation toward zero, as JS `ToIntegerOrInfinity` does on assignment. -/
def ratTrunc (q : ℚ) : ℤ := if q < 0 then ⌈q⌉ else ⌊q⌋

/-- Wrap an integer into the signed 16-bit range (JS `ToInt16`). -/
def toInt16 (n : ℤ) : ℤ := (n + 32768) % 65536 - 32768

/-- One sample through `floatTo16BitPCM`: clamp, scale, store as `Int16`. -/
def pcmSample (x : ℚ) : ℤ := toInt16 (ratTrunc (scaleSample (clampSample x)))

/-- Method `AudioProcessor.floatTo16BitPCM` over a whole `Float32Array`. -/
def floatTo16BitPCM (input : List ℚ) : List ℤ := input.map pcmSample

/-! Section: `AudioProcessor` state and methods.

Fields mirror the class fields; host object handles (`AudioContext`,
`MediaStream`, `ScriptProcessorNode`, `AnalyserNode`) are tracked only as
presence flags, `dataArray` holds the `Uint8Array` contents, and
`silenceTimeout` stores the absolute firing deadline of the pending
`setTimeout` (`some d` = a timer is pending and will run at time `d`).
`playingSources` counts `AudioBufferSourceNode`s that have been started and
have not yet ended; nothing in the source ever stops one early. -/

structure AudioProcessor where
  hasAudioContext : Bool
  hasMediaStream : Bool
  hasProcessor : Bool
  hasAnalyser : Bool
  dataArray : Option (List Nat)
  isRecording : Bool
  silenceTimeout : Option ℚ
  isSpeaking : Bool
  playingSources : Nat
deriving DecidableEq

/-- Field initializers of `new AudioProcessor()`: every handle null,
`isRecording`/`isSpeaking` false, no pending timer. -/
def AudioProcessor.mk0 : AudioProcessor :=
  ⟨false, false, false, false, none, false, none, false, 0⟩

/-- Constant `speechDetectionThreshold = 30` (private class field, a constant). -/
def speechDetectionThreshold : ℚ := 30

/-- The mean the source computes with
`dataArray.reduce((sum, v) => sum + v, 0) / dataArray.length`. -/
def avgOf (freq : List Nat) : ℚ := (freq.sum : ℚ) / (freq.length : ℚ)

/-- Method `AudioProcessor.startRecording`.  `granted` is whether `getUserMedia`
resolves.  On success the analyser is created with `fftSize = 256`, so
`dataArray` has `frequencyBinCount = 128` entries; on failure the error is
rethrown and no field has been assigned. -/
def deviceErrorMsg : String := "DeviceError"

def AudioProcessor.startRecording (ap : AudioProcessor) (granted : Bool) :
    Except String AudioProcessor :=
  if granted then
    Except.ok { ap with
      hasMediaStream := true
      hasAudioContext := true
      hasAnalyser := true
      dataArray := some (List.replicate 128 0)
      hasProcessor := true
      isRecording := true }
  else Except.error deviceErrorMsg

/-- Method `AudioProcessor.stopRecording`: nulls `processor`, `mediaStream`,
`audioContext` and clears `silenceTimeout`; it does NOT touch `analyser` or
`dataArray` (the source never nulls them). -/
def AudioProcessor.stopRecording (ap : AudioProcessor) : AudioProcessor :=
  { ap with
    isRecording := false
    hasProcessor := false
    hasMediaStream := false
    hasAudioContext := false
    silenceTimeout := none }

/-- Method `AudioProcessor.getVolume`.  `freq` is the data the analyser currently
holds, which `getByteFrequencyData` copies into `dataArray`.  Returns the
updated state and the result `Math.min(1, average / 128)`, or `0` when the
analyser or data array is absent. -/
def AudioProcessor.getVolume (ap : AudioProcessor) (freq : List Nat) :
    AudioProcessor × ℚ :=
  if ap.hasAnalyser = false ∨ ap.dataArray = none then (ap, 0)
  else ({ ap with dataArray := some freq }, min 1 (avgOf freq / 128))

/-- Events the voice activity detector emits. -/
inductive VadSig where
  | speechStart
  | speechEnd
deriving DecidableEq

/-- Event-loop prelude to processing a window at time `t`: a pending
`silenceTimeout` whose deadline has passed has already fired, emitting
`onSpeechEnd` at its deadline.  (The source leaves the stale handle in the
field; since `clearTimeout` on a fired handle is a no-op and the handle is
never otherwise read, clearing it here is observationally identical.) -/
def fireDue (ap : AudioProcessor) (t : ℚ) : AudioProcessor × List (ℚ × VadSig) :=
  match ap.silenceTimeout with
  | some d =>
      if d ≤ t then ({ ap with silenceTimeout := none }, [(d, VadSig.speechEnd)])
      else (ap, [])
  | none => (ap, [])

/-- Method `AudioProcessor.detectSpeech` body, processing the analyser data `freq`
of the current window at time `t`: guard on analyser/data array, copy the
frequency data, compare the mean against the threshold, emit `onSpeechStart`
on a Silent-to-Speaking edge (cancelling a pending timer) and schedule
`onSpeechEnd` 500 ms ahead on a Speaking-to-Silent edge. -/
def AudioProcessor.detectSpeech (ap : AudioProcessor) (t : ℚ) (freq : List Nat) :
    AudioProcessor × List (ℚ × VadSig) :=
  if ap.hasAnalyser = false ∨ ap.dataArray = none then (ap, [])
  else
    let ap0 := { ap with dataArray := some freq }
    let wasSpeaking := ap0.isSpeaking
    let speakingNow := decide (avgOf freq > speechDetectionThreshold)
    let ap1 := { ap0 with isSpeaking := speakingNow }
    if speakingNow && !wasSpeaking then
      ({ ap1 with silenceTimeout := none }, [(t, VadSig.speechStart)])
    else if !speakingNow && wasSpeaking then
      ({ ap1 with silenceTimeout := some (t + 500) }, [])
    else (ap1, [])

/-- One audio-window event at time `t`: run any due timer, then
`detectSpeech`. -/
def detectStep (ap : AudioProcessor) (t : ℚ) (freq : List Nat) :
    AudioProcessor × List (ℚ × VadSig) :=
  let p1 := fireDue ap t
  let p2 := p1.1.detectSpeech t freq
  (p2.1, p1.2 ++ p2.2)

/-- Process a sequence of audio windows `(time, analyser data)` in order. -/
def runDetect (ap : AudioProcessor) : List (ℚ × List Nat) → AudioProcessor × List (ℚ × VadSig)
  | [] => (ap, [])
  | (t, freq) :: rest =>
      let p1 := detectStep ap t freq
      let p2 := runDetect p1.1 rest
      (p2.1, p1.2 ++ p2.2)

/-- Fate of the promise `AudioProcessor.playAudio` returns. -/
inductive PlayResult where
  | resolvesOnEnded
  | resolvesNow
  | rejects
deriving DecidableEq

/-- Whether a `.then` continuation attached to the returned promise runs. -/
def thenRuns : PlayResult → Bool
  | PlayResult.rejects => false
  | _ => true

/-- Method `AudioProcessor.playAudio`.  `decodeOk` is whether
`audioContext.decodeAudioData` succeeds on the payload.  An `AudioContext` is
created if absent; on successful decode a source node is connected and
started and the returned promise resolves when it ends; a decode failure is
caught, logged, and the async function returns (resolving immediately). -/
def AudioProcessor.playAudio (ap : AudioProcessor) (decodeOk : Bool) :
    AudioProcessor × PlayResult :=
  let ap0 := if ap.hasAudioContext then ap else { ap with hasAudioContext := true }
  if decodeOk then
    ({ ap0 with playingSources := ap0.playingSources + 1 }, PlayResult.resolvesOnEnded)
  else (ap0, PlayResult.resolvesNow)

/-- Method `AudioProcessor.stopPlayback`: the source only logs
"Stopping audio playback for interruption" and changes nothing. -/
def AudioProcessor.stopPlayback (ap : AudioProcessor) : AudioProcessor := ap

/-! Section: `WebSocketService` (`src/frontend/utils/ws.ts`).

The transport is modelled as a state machine driven by an event trace.  All
sockets ever constructed are kept (index = creation order) because a socket's
`onopen`/`onerror`/`onclose` closures stay attached to it and keep mutating
`this` even after `this.ws` has been re-pointed or nulled.  Per the WHATWG
WebSocket lifecycle, by the time an `error` or `close` handler runs the
socket's `readyState` is `CLOSED`, the `close` event fires exactly once and
last, and `open` can only follow the `CONNECTING` state. -/

inductive ReadyState where
  | connecting
  | opened
  | closing
  | closed
deriving DecidableEq

/-- A socket object: its ready state, and whether its `close` event has
already been dispatched. -/
structure SockState where
  rs : ReadyState
  closeFired : Bool
deriving DecidableEq

/-- The mutable fields of a `WebSocketService` instance, plus the event-loop
resources it owns: `socks` all sockets constructed so far, `cur` the index
`this.ws` points at (`none` = null), `timers` the delays of pending
reconnect `setTimeout`s (the source never stores their ids). -/
structure WebSocketService where
  socks : List SockState
  cur : Option Nat
  isConnecting : Bool
  reconnectAttempts : Nat
  maxReconnectAttempts : Nat
  reconnectDelay : Nat
  timers : List Nat
deriving DecidableEq

/-- Constructor state; the source initializes `reconnectAttempts = 0`,
`maxReconnectAttempts = 5`, `reconnectDelay = 1000`, `isConnecting = false`,
`ws = null`.  `base` generalizes the `reconnectDelay` constant. -/
def WebSocketService.init (base : Nat) : WebSocketService :=
  ⟨[], none, false, 0, 5, base, []⟩

/-- A wire frame as handed to `ws.send`. -/
inductive WireFrame where
  | jsonMsg (type_ : String) (data : String)
  | binaryMsg (bytes : List Nat)
deriving DecidableEq

/-- Observable effects of a step: a `console.warn`, an actual transmission,
a reconnect `setTimeout` being scheduled, an `onConnectionChange`
notification, or an `onError` notification. -/
inductive WsOut where
  | warn
  | transmit (f : WireFrame)
  | scheduled (delay : Nat)
  | connChange (b : Bool)
  | errorCb
deriving DecidableEq

/-- Message type tag of the rtvi handshake control message. -/
def controlType : String := "control"

/-- Serialized data of the rtvi handshake control message. -/
def handshakeData : String := "action:connect,protocol:rtvi"

/-- A sample message type tag used in concrete witnesses. -/
def textType : String := "text"

/-- A sample message payload used in concrete witnesses. -/
def sampleText : String := "hello"

/-- Update socket `j` if it exists. -/
def updSock (socks : List SockState) (j : Nat) (f : SockState → SockState) :
    List SockState :=
  match socks.get? j with
  | some sk => socks.set j (f sk)
  | none => socks

/-- Method `WebSocketService.isConnected`: `this.ws?.readyState === WebSocket.OPEN`. -/
def WebSocketService.isConnected (s : WebSocketService) : Bool :=
  match s.cur with
  | some i =>
      match s.socks.get? i with
      | some sk => decide (sk.rs = ReadyState.opened)
      | none => false
  | none => false

/-- Method `WebSocketService.connect`: no-op when `isConnecting` or connected; else
set `isConnecting`, construct a new `WebSocket` (state `CONNECTING`) and
point `this.ws` at it. -/
def WebSocketService.connectAction (s : WebSocketService) :
    WebSocketService × List WsOut :=
  if s.isConnecting || s.isConnected then (s, [])
  else
    ({ s with
        isConnecting := true
        socks := s.socks ++ [⟨ReadyState.connecting, false⟩]
        cur := some s.socks.length }, [])

/-- Method `WebSocketService.send`: warn and drop unless connected, else serialize
and transmit on the current socket. -/
def WebSocketService.sendAction (s : WebSocketService) (type_ data : String) :
    WebSocketService × List WsOut :=
  if s.isConnected then (s, [WsOut.transmit (WireFrame.jsonMsg type_ data)])
  else (s, [WsOut.warn])

/-- Method `WebSocketService.sendAudio`: silently drop unless connected, else
transmit the bytes as a binary frame.  (The source has no `console.warn` on
this path.) -/
def WebSocketService.sendAudioAction (s : WebSocketService) (bytes : List Nat) :
    WebSocketService × List WsOut :=
  if s.isConnected then (s, [WsOut.transmit (WireFrame.binaryMsg bytes)])
  else (s, [])

/-- Effect of `ws.close()` as called by `disconnect`: moves a `CONNECTING`/`OPEN`
socket to `CLOSING`, otherwise does nothing. -/
def jsClose (sk : SockState) : SockState :=
  if sk.rs = ReadyState.connecting ∨ sk.rs = ReadyState.opened then
    { sk with rs := ReadyState.closing }
  else sk

/-- Method `WebSocketService.disconnect`: when `this.ws` is non-null, `close(1000)`
it and null the reference; otherwise nothing.  The pending reconnect timers
are untouched: the source never stores the `setTimeout` id. -/
def WebSocketService.disconnectAction (s : WebSocketService) :
    WebSocketService × List WsOut :=
  match s.cur with
  | some i => ({ s with socks := updSock s.socks i jsClose, cur := none }, [])
  | none => (s, [])

/-- Handler `onopen` of socket `j` (only deliverable while it is `CONNECTING` and its
close event has not fired): readyState becomes `OPEN`, the handler clears
`isConnecting`, resets `reconnectAttempts`, notifies listeners and sends the
rtvi handshake control message through `send`. -/
def WebSocketService.openDispatch (s : WebSocketService) (j : Nat) :
    WebSocketService × List WsOut :=
  match s.socks.get? j with
  | some sk =>
      if sk.rs = ReadyState.connecting ∧ sk.closeFired = false then
        let s1 := { s with
          socks := updSock s.socks j fun sk => { sk with rs := ReadyState.opened }
          isConnecting := false
          reconnectAttempts := 0 }
        let p := s1.sendAction controlType handshakeData
        (p.1, WsOut.connChange true :: p.2)
      else (s, [])
  | none => (s, [])

/-- Handler `onerror` of socket `j`: dispatched after the connection has failed, so
the socket is `CLOSED` by handler time; the handler clears `isConnecting`
and notifies `onError`.  It never schedules a reconnect. -/
def WebSocketService.errorDispatch (s : WebSocketService) (j : Nat) :
    WebSocketService × List WsOut :=
  match s.socks.get? j with
  | some sk =>
      if sk.rs ≠ ReadyState.closed ∧ sk.closeFired = false then
        ({ s with
            socks := updSock s.socks j fun sk => { sk with rs := ReadyState.closed }
            isConnecting := false }, [WsOut.errorCb])
      else (s, [])
  | none => (s, [])

/-- Handler `onclose` of socket `j` (fires exactly once per socket, last): the
handler clears `isConnecting`, notifies listeners, and on an unclean close
with `reconnectAttempts < maxReconnectAttempts` runs `scheduleReconnect`:
increment the counter and `setTimeout(connect, reconnectDelay * 2 ^
(reconnectAttempts - 1))`. -/
def WebSocketService.closeDispatch (s : WebSocketService) (j : Nat)
    (wasClean : Bool) : WebSocketService × List WsOut :=
  match s.socks.get? j with
  | some sk =>
      if sk.closeFired = false then
        let s1 := { s with
          socks := updSock s.socks j fun _ => ⟨ReadyState.closed, true⟩
          isConnecting := false }
        if !wasClean ∧ s1.reconnectAttempts < s1.maxReconnectAttempts then
          let a := s1.reconnectAttempts + 1
          let delay := s1.reconnectDelay * 2 ^ (a - 1)
          ({ s1 with reconnectAttempts := a, timers := s1.timers ++ [delay] },
           [WsOut.connChange false, WsOut.scheduled delay])
        else (s1, [WsOut.connChange false])
      else (s, [])
  | none => (s, [])

/-- A pending reconnect timer (position `k` in the pending list) fires: it is
consumed and its callback calls `this.connect()`. -/
def WebSocketService.timerFire (s : WebSocketService) (k : Nat) :
    WebSocketService × List WsOut :=
  if k < s.timers.length then
    WebSocketService.connectAction { s with timers := s.timers.eraseIdx k }
  else (s, [])

/-- Events driving the transport: the four public methods callable by the
app, the three socket events (dispatched by the host for any socket whose
handlers are attached), and reconnect-timer expiry. -/
inductive WsEv where
  | connect
  | disconnect
  | send (type_ data : String)
  | sendAudio (bytes : List Nat)
  | openDispatch (j : Nat)
  | errorDispatch (j : Nat)
  | closeDispatch (j : Nat) (wasClean : Bool)
  | timerFire (k : Nat)
deriving DecidableEq

/-- One event against the service state. -/
def WebSocketService.step (s : WebSocketService) : WsEv → WebSocketService × List WsOut
  | WsEv.connect => s.connectAction
  | WsEv.disconnect => s.disconnectAction
  | WsEv.send t d => s.sendAction t d
  | WsEv.sendAudio b => s.sendAudioAction b
  | WsEv.openDispatch j => s.openDispatch j
  | WsEv.errorDispatch j => s.errorDispatch j
  | WsEv.closeDispatch j w => s.closeDispatch j w
  | WsEv.timerFire k => s.timerFire k

/-- Run a whole event trace, collecting outputs in order. -/
def WebSocketService.run (s : WebSocketService) : List WsEv → WebSocketService × List WsOut
  | [] => (s, [])
  | e :: rest =>
      let p1 := s.step e
      let p2 := p1.1.run rest
      (p2.1, p1.2 ++ p2.2)

/-- The delays of the reconnect timers scheduled among some outputs. -/
def scheduledDelays (outs : List WsOut) : List Nat :=
  outs.filterMap fun o =>
    match o with
    | WsOut.scheduled d => some d
    | _ => none

/-- Number of live sockets: constructed, not closing and not closed. -/
def liveCount (s : WebSocketService) : Nat :=
  (s.socks.filter fun sk =>
    decide (sk.rs = ReadyState.connecting) || decide (sk.rs = ReadyState.opened)).length

/-- Six successive unclean closes of whatever socket is current, each
followed by the resulting reconnect timer firing (sockets are numbered in
creation order, so failure `n` closes socket `n - 1`). -/
def failureTrace : List WsEv :=
  [WsEv.connect,
   WsEv.closeDispatch 0 false, WsEv.timerFire 0,
   WsEv.closeDispatch 1 false, WsEv.timerFire 0,
   WsEv.closeDispatch 2 false, WsEv.timerFire 0,
   WsEv.closeDispatch 3 false, WsEv.timerFire 0,
   WsEv.closeDispatch 4 false, WsEv.timerFire 0,
   WsEv.closeDispatch 5 false]

/-! Section: helper lemmas, base64 round trip -/

/-- Decoding inverts the alphabet lookup on every six-bit value. -/
theorem charToSextet_sextetToChar : ∀ n < 64, charToSextet (sextetToChar n) = some n := by
  decide

/-- Alphabet characters are never the padding character. -/
theorem sextetToChar_ne_pad : ∀ n < 64, sextetToChar n ≠ '=' := by
  decide

/-- Encoding a nonempty byte list yields a nonempty string. -/
theorem b64encode_ne_nil : ∀ bs : List Nat, bs ≠ [] → b64encode bs ≠ [] := by
  intro bs h
  match bs with
  | [] => exact absurd rfl h
  | [b1] => simp [b64encode]
  | [b1, b2] => simp [b64encode]
  | b1 :: b2 :: b3 :: rest => simp [b64encode]

/-- Base64 decode is a left inverse of encode on byte sequences. -/
theorem b64decode_b64encode :
    ∀ bs : List Nat, (∀ b ∈ bs, b < 256) → b64decode (b64encode bs) = some bs := by
  intro bs
  induction bs using b64encode.induct with
  | case1 =>
      intro _
      rfl
  | case2 b1 =>
      intro h
      have hb1 : b1 < 256 := h b1 (by simp)
      have e1 := charToSextet_sextetToChar (b1 / 4) (by omega)
      have e2 := charToSextet_sextetToChar (b1 % 4 * 16) (by omega)
      simp only [b64encode, b64decode, e1, e2, Option.some_bind]
      simp
      omega
  | case3 b1 b2 =>
      intro h
      have hb1 : b1 < 256 := h b1 (by simp)
      have hb2 : b2 < 256 := h b2 (by simp)
      have e1 := charToSextet_sextetToChar (b1 / 4) (by omega)
      have e2 := charToSextet_sextetToChar (b1 % 4 * 16 + b2 / 16) (by omega)
      have e3 := charToSextet_sextetToChar (b2 % 16 * 4) (by omega)
      have n3 := sextetToChar_ne_pad (b2 % 16 * 4) (by omega)
      simp only [b64encode, b64decode, e1, e2, e3, Option.some_bind]
      simp only [n3, if_false, and_false, false_and, ite_false, Option.some.injEq,
        List.cons.injEq, and_true]
      simp
      omega
  | case4 b1 b2 b3 rest ih =>
      intro h
      have hb1 : b1 < 256 := h b1 (by simp)
      have hb2 : b2 < 256 := h b2 (by simp)
      have hb3 : b3 < 256 := h b3 (by simp)
      have e1 := charToSextet_sextetToChar (b1 / 4) (by omega)
      have e2 := charToSextet_sextetToChar (b1 % 4 * 16 + b2 / 16) (by omega)
      have e3 := charToSextet_sextetToChar (b2 % 16 * 4 + b3 / 64) (by omega)
      have e4 := charToSextet_sextetToChar (b3 % 64) (by omega)
      have n3 := sextetToChar_ne_pad (b2 % 16 * 4 + b3 / 64) (by omega)
      have n4 := sextetToChar_ne_pad (b3 % 64) (by omega)
      have hrest := ih fun b hb => h b (by simp [hb])
      simp only [b64encode, b64decode, e1, e2, e3, e4, hrest, Option.some_bind]
      simp [n3, n4]
      omega

/-- C3: the claim quantifies over every byte payload, but the empty payload
refutes it: the binary frame path invokes the audio sink with the empty
buffer, while the JSON path base64-encodes the empty payload to the empty
string, which fails the `if (message.data)` truthiness guard, so the sink is
never invoked. -/
theorem c3_counterexample :
    handleBinaryFrame [] = some [] ∧
    arrayBufferToBase64 [] = some [] ∧
    b64encode [] = [] ∧
    handleJsonAudio (b64encode []) = none := by
  decide

/-- C3 (amended): for every nonempty byte payload, native binary delivery and
base64-in-JSON delivery invoke the audio sink with identical decoded bytes,
and `base64ToArrayBuffer` inverts the base64 encoding on every byte payload. -/
theorem c3_base64_roundtrip (bs : List Nat) (h : ∀ b ∈ bs, b < 256) :
    arrayBufferToBase64 bs = some (b64encode bs) ∧
    base64ToArrayBuffer (b64encode bs) = some bs ∧
    handleBinaryFrame bs = some bs ∧
    (bs ≠ [] → handleJsonAudio (b64encode bs) = some bs) := by
  have hdec : b64decode (b64encode bs) = some bs := b64decode_b64encode bs h
  refine ⟨?_, ?_, rfl, ?_⟩
  · unfold arrayBufferToBase64 btoaModel
    have : bs.all (· < 256) = true := by
      rw [List.all_eq_true]
      intro b hb
      exact decide_eq_true (h b hb)
    rw [this]
    simp
  · exact hdec
  · intro hne
    unfold handleJsonAudio
    rw [if_neg (b64encode_ne_nil bs hne)]
    exact hdec

/-- Witness for C3's amended theorem at the payload `"Hi!"` = `[72, 105, 33]`. -/
theorem c3_base64_roundtrip_witness :
    handleBinaryFrame [72, 105, 33] = some [72, 105, 33] ∧
    handleJsonAudio (b64encode [72, 105, 33]) = some [72, 105, 33] :=
  ⟨(c3_base64_roundtrip [72, 105, 33] (by decide)).2.2.1,
   (c3_base64_roundtrip [72, 105, 33] (by decide)).2.2.2 (by decide)⟩

/-! Section: helper lemmas, PCM conversion -/

/-- Clamping is the identity on `[-1, 1]`. -/
theorem clampSample_eq_self {x : ℚ} (h1 : -1 ≤ x) (h2 : x ≤ 1) : clampSample x = x := by
  unfold clampSample
  rw [min_eq_right h2, max_eq_right h1]

/-- The clamped sample always lies in `[-1, 1]`. -/
theorem clampSample_mem (x : ℚ) : -1 ≤ clampSample x ∧ clampSample x ≤ 1 := by
  unfold clampSample
  constructor
  · exact le_max_left _ _
  · exact max_le (by norm_num) (min_le_left _ _)

/-- Clamping is idempotent. -/
theorem clampSample_idem (x : ℚ) : clampSample (clampSample x) = clampSample x :=
  clampSample_eq_self (clampSample_mem x).1 (clampSample_mem x).2

/-- Clamping is monotone. -/
theorem clampSample_mono {x y : ℚ} (h : x ≤ y) : clampSample x ≤ clampSample y :=
  max_le_max le_rfl (min_le_min le_rfl h)

/-- On `[-1, 1]`, truncating the scaled sample lands in the signed 16-bit
range. -/
theorem ratTrunc_scale_bounds {x : ℚ} (h1 : -1 ≤ x) (h2 : x ≤ 1) :
    -32768 ≤ ratTrunc (scaleSample x) ∧ ratTrunc (scaleSample x) ≤ 32767 := by
  unfold scaleSample ratTrunc
  by_cases hx : x < 0
  · have hq : x * 32768 < 0 := by nlinarith
    rw [if_pos hx, if_pos hq]
    constructor
    · have hle : (-32768 : ℚ) ≤ x * 32768 := by nlinarith
      have := Int.ceil_le_ceil hle
      rwa [show ⌈(-32768 : ℚ)⌉ = -32768 by
        rw [show ((-32768 : ℚ)) = -(32768 : ℚ) by ring, Int.ceil_neg]; norm_num] at this
    · have : ⌈x * 32768⌉ ≤ 0 := Int.ceil_le.mpr (by exact_mod_cast hq.le)
      omega
  · push_neg at hx
    have hq : ¬x * 32767 < 0 := by nlinarith
    rw [if_neg (by nlinarith : ¬x < 0), if_neg hq]
    constructor
    · have : (0 : ℤ) ≤ ⌊x * 32767⌋ := Int.floor_nonneg.mpr (by nlinarith)
      omega
    · have hle : x * 32767 ≤ (32767 : ℚ) := by nlinarith
      have := Int.floor_le_floor hle
      rwa [show ⌊(32767 : ℚ)⌋ = 32767 by norm_num] at this

/-- Truncating the scaled sample is monotone (both scaling branches are
nonnegative multiples meeting at 0, and truncation toward zero is monotone). -/
theorem ratTrunc_scale_mono {x y : ℚ} (h : x ≤ y) :
    ratTrunc (scaleSample x) ≤ ratTrunc (scaleSample y) := by
  unfold scaleSample ratTrunc
  by_cases hx : x < 0
  · by_cases hy : y < 0
    · have hqx : x * 32768 < 0 := by nlinarith
      have hqy : y * 32768 < 0 := by nlinarith
      rw [if_pos hx, if_pos hy, if_pos hqx, if_pos hqy]
      exact Int.ceil_le_ceil (by nlinarith)
    · push_neg at hy
      have hqx : x * 32768 < 0 := by nlinarith
      have hqy : ¬y * 32767 < 0 := by nlinarith
      rw [if_pos hx, if_neg hy.not_lt, if_pos hqx, if_neg hqy]
      have hL : ⌈x * 32768⌉ ≤ 0 := Int.ceil_le.mpr (by exact_mod_cast hqx.le)
      have hR : (0 : ℤ) ≤ ⌊y * 32767⌋ := Int.floor_nonneg.mpr (by nlinarith)
      omega
  · push_neg at hx
    have hy : ¬y < 0 := by nlinarith
    have hqx : ¬x * 32767 < 0 := by nlinarith
    have hqy : ¬y * 32767 < 0 := by nlinarith
    rw [if_neg hx.not_lt, if_neg hy, if_neg hqx, if_neg hqy]
    exact Int.floor_le_floor (by nlinarith)

/-- Lemma: `ToInt16` wrapping is the identity on the signed 16-bit range. -/
theorem toInt16_eq_self {n : ℤ} (h1 : -32768 ≤ n) (h2 : n ≤ 32767) : toInt16 n = n := by
  unfold toInt16
  omega

/-- Every converted sample lies in the signed 16-bit range. -/
theorem pcmSample_bounds (x : ℚ) : -32768 ≤ pcmSample x ∧ pcmSample x ≤ 32767 := by
  unfold pcmSample
  obtain ⟨hb1, hb2⟩ := ratTrunc_scale_bounds (clampSample_mem x).1 (clampSample_mem x).2
  rw [toInt16_eq_self hb1 hb2]
  exact ⟨hb1, hb2⟩

/-- The PCM conversion is monotone. -/
theorem pcmSample_mono {x y : ℚ} (h : x ≤ y) : pcmSample x ≤ pcmSample y := by
  unfold pcmSample
  obtain ⟨hx1, hx2⟩ := ratTrunc_scale_bounds (clampSample_mem x).1 (clampSample_mem x).2
  obtain ⟨hy1, hy2⟩ := ratTrunc_scale_bounds (clampSample_mem y).1 (clampSample_mem y).2
  rw [toInt16_eq_self hx1 hx2, toInt16_eq_self hy1 hy2]
  exact ratTrunc_scale_mono (clampSample_mono h)

/-- C1: `floatTo16BitPCM` clamps each sample first (conversion factors
through the clamp), on `[-1, 1]` the clamp is the identity so negative
samples are scaled by 32768 and non-negative ones by 32767, and over `[-1, 1]`
the conversion is monotone with values in `[-32768, 32767]`. -/
theorem c1_pcm_conversion (x y : ℚ) (hx1 : -1 ≤ x) (hx2 : x ≤ 1) (hxy : x ≤ y)
    (hy2 : y ≤ 1) :
    pcmSample x = toInt16 (ratTrunc (scaleSample x)) ∧
    (∀ z : ℚ, pcmSample z = pcmSample (clampSample z)) ∧
    (-32768 ≤ pcmSample x ∧ pcmSample x ≤ 32767) ∧
    pcmSample x ≤ pcmSample y ∧
    floatTo16BitPCM [x, y] = [pcmSample x, pcmSample y] := by
  refine ⟨?_, ?_, pcmSample_bounds x, pcmSample_mono hxy, rfl⟩
  · unfold pcmSample
    rw [clampSample_eq_self hx1 hx2]
  · intro z
    unfold pcmSample
    rw [clampSample_idem]

/-- Witness for C1 at the samples `-1/2 ≤ 1/2`. -/
theorem c1_pcm_conversion_witness :
    (-32768 ≤ pcmSample (-1/2 : ℚ) ∧ pcmSample (-1/2 : ℚ) ≤ 32767) ∧
    pcmSample (-1/2 : ℚ) ≤ pcmSample (1/2 : ℚ) ∧
    pcmSample (-1/2 : ℚ) = -16384 ∧ pcmSample (1/2 : ℚ) = 16383 := by
  refine ⟨(c1_pcm_conversion (-1/2) (1/2) (by norm_num) (by norm_num) (by norm_num)
      (by norm_num)).2.2.1,
    (c1_pcm_conversion (-1/2) (1/2) (by norm_num) (by norm_num) (by norm_num)
      (by norm_num)).2.2.2.1, ?_, ?_⟩
  · unfold pcmSample
    rw [clampSample_eq_self (by norm_num) (by norm_num)]
    unfold scaleSample
    rw [if_pos (by norm_num : (-1/2 : ℚ) < 0)]
    unfold ratTrunc
    rw [if_pos (by norm_num : (-1/2 : ℚ) * 32768 < 0),
      show ((-1/2 : ℚ) * 32768) = -(16384 : ℚ) by ring, Int.ceil_neg,
      show ⌊(16384 : ℚ)⌋ = 16384 by norm_num]
    unfold toInt16
    decide
  · unfold pcmSample
    rw [clampSample_eq_self (by norm_num) (by norm_num)]
    unfold scaleSample
    rw [if_neg (by norm_num : ¬(1/2 : ℚ) < 0)]
    unfold ratTrunc
    rw [if_neg (by norm_num : ¬(1/2 : ℚ) * 32767 < 0),
      show ⌊(1/2 : ℚ) * 32767⌋ = 16383 by norm_num]
    unfold toInt16
    decide

/-! Section: helper lemmas, transport state machine -/

/-- Running a concatenated trace runs the pieces in sequence and concatenates
their outputs. -/
theorem run_append :
    ∀ (tr1 tr2 : List WsEv) (s : WebSocketService),
      s.run (tr1 ++ tr2)
        = ((((s.run tr1).1.run tr2).1),
           (s.run tr1).2 ++ ((s.run tr1).1.run tr2).2) := by
  intro tr1
  induction tr1 with
  | nil => intro tr2 s; simp [WebSocketService.run]
  | cons e rest ih =>
      intro tr2 s
      show ((((s.step e).1.run (rest ++ tr2)).1),
        (s.step e).2 ++ ((s.step e).1.run (rest ++ tr2)).2) = _
      rw [ih]
      simp only [WebSocketService.run, List.append_assoc]

/-- C2: along six successive unclean closes from a fresh service, the five
scheduled reconnect delays are `base, base*2, base*4, base*8, base*16`, after
which no timer is pending; in general a close with the attempt counter
exhausted schedules nothing, while an unclean close with `reconnectAttempts`
not exhausted schedules exactly `reconnectDelay * 2 ^ ((reconnectAttempts + 1)
- 1)`, i.e. `base * 2^(n-1)` before automatic attempt `n`. -/
theorem c2_reconnect_backoff (base : Nat) :
    scheduledDelays (WebSocketService.run (WebSocketService.init base) failureTrace).2
      = [base, base * 2, base * 4, base * 8, base * 16] ∧
    (WebSocketService.run (WebSocketService.init base) failureTrace).1.timers = [] ∧
    (∀ (s : WebSocketService) (j : Nat) (w : Bool),
        s.maxReconnectAttempts ≤ s.reconnectAttempts →
        scheduledDelays (s.closeDispatch j w).2 = [] ∧
        (s.closeDispatch j w).1.timers = s.timers) ∧
    (∀ (s : WebSocketService) (j : Nat) (sk : SockState),
        s.socks.get? j = some sk → sk.closeFired = false →
        s.reconnectAttempts < s.maxReconnectAttempts →
        scheduledDelays (s.closeDispatch j false).2
          = [s.reconnectDelay * 2 ^ (s.reconnectAttempts + 1 - 1)]) := by
  have hA : WebSocketService.run (WebSocketService.init base)
      [WsEv.connect, WsEv.closeDispatch 0 false, WsEv.timerFire 0,
       WsEv.closeDispatch 1 false]
      = (⟨[⟨ReadyState.closed, true⟩, ⟨ReadyState.closed, true⟩],
          some 1, false, 2, 5, base, [base * 2]⟩,
         [WsOut.connChange false, WsOut.scheduled (base * 1),
          WsOut.connChange false, WsOut.scheduled (base * 2)]) := rfl
  have hB : WebSocketService.run
      (⟨[⟨ReadyState.closed, true⟩, ⟨ReadyState.closed, true⟩],
        some 1, false, 2, 5, base, [base * 2]⟩ : WebSocketService)
      [WsEv.timerFire 0, WsEv.closeDispatch 2 false, WsEv.timerFire 0,
       WsEv.closeDispatch 3 false]
      = (⟨[⟨ReadyState.closed, true⟩, ⟨ReadyState.closed, true⟩,
           ⟨ReadyState.closed, true⟩, ⟨ReadyState.closed, true⟩],
          some 3, false, 4, 5, base, [base * 8]⟩,
         [WsOut.connChange false, WsOut.scheduled (base * 4),
          WsOut.connChange false, WsOut.scheduled (base * 8)]) := rfl
  have hC : WebSocketService.run
      (⟨[⟨ReadyState.closed, true⟩, ⟨ReadyState.closed, true⟩,
         ⟨ReadyState.closed, true⟩, ⟨ReadyState.closed, true⟩],
        some 3, false, 4, 5, base, [base * 8]⟩ : WebSocketService)
      [WsEv.timerFire 0, WsEv.closeDispatch 4 false, WsEv.timerFire 0,
       WsEv.closeDispatch 5 false]
      = (⟨[⟨ReadyState.closed, true⟩, ⟨ReadyState.closed, true⟩,
           ⟨ReadyState.closed, true⟩, ⟨ReadyState.closed, true⟩,
           ⟨ReadyState.closed, true⟩, ⟨ReadyState.closed, true⟩],
          some 5, false, 5, 5, base, []⟩,
         [WsOut.connChange false, WsOut.scheduled (base * 16),
          WsOut.connChange false]) := rfl
  have hsplit : failureTrace
      = [WsEv.connect, WsEv.closeDispatch 0 false, WsEv.timerFire 0,
         WsEv.closeDispatch 1 false]
        ++ ([WsEv.timerFire 0, WsEv.closeDispatch 2 false, WsEv.timerFire 0,
             WsEv.closeDispatch 3 false]
            ++ [WsEv.timerFire 0, WsEv.closeDispatch 4 false, WsEv.timerFire 0,
                WsEv.closeDispatch 5 false]) := rfl
  have hrun : WebSocketService.run (WebSocketService.init base) failureTrace
      = (⟨[⟨ReadyState.closed, true⟩, ⟨ReadyState.closed, true⟩,
           ⟨ReadyState.closed, true⟩, ⟨ReadyState.closed, true⟩,
           ⟨ReadyState.closed, true⟩, ⟨ReadyState.closed, true⟩],
          some 5, false, 5, 5, base, []⟩,
         [WsOut.connChange false, WsOut.scheduled (base * 1),
          WsOut.connChange false, WsOut.scheduled (base * 2)]
         ++ ([WsOut.connChange false, WsOut.scheduled (base * 4),
              WsOut.connChange false, WsOut.scheduled (base * 8)]
             ++ [WsOut.connChange false, WsOut.scheduled (base * 16),
                 WsOut.connChange false])) := by
    rw [hsplit, run_append, hA]
    rw [show ((⟨[⟨ReadyState.closed, true⟩, ⟨ReadyState.closed, true⟩],
          some 1, false, 2, 5, base, [base * 2]⟩ : WebSocketService),
         ([WsOut.connChange false, WsOut.scheduled (base * 1),
           WsOut.connChange false, WsOut.scheduled (base * 2)] : List WsOut)).1
        = (⟨[⟨ReadyState.closed, true⟩, ⟨ReadyState.closed, true⟩],
            some 1, false, 2, 5, base, [base * 2]⟩ : WebSocketService) from rfl,
      run_append, hB, hC]
  refine ⟨?_, ?_, ?_, ?_⟩
  · rw [hrun]
    simp [scheduledDelays]
  · rw [hrun]
  · intro s j w h
    unfold WebSocketService.closeDispatch
    cases hsk : s.socks.get? j with
    | none => exact ⟨rfl, rfl⟩
    | some sk =>
        cases hcf : sk.closeFired with
        | true => simp [hcf, scheduledDelays]
        | false =>
            have hnot : ¬(w = false ∧ s.reconnectAttempts < s.maxReconnectAttempts) := by
              rintro ⟨-, hlt⟩
              omega
            simp [hcf, hnot, scheduledDelays]
  · intro s j sk hsk hcf hlt
    unfold WebSocketService.closeDispatch
    rw [hsk]
    simp [hcf, hlt, scheduledDelays]

/-- Witness for C2's two general conjuncts at concrete states: a service with
the attempt counter exhausted schedules nothing on unclean close, and a fresh
connecting service schedules `1000 * 2^0`. -/
theorem c2_reconnect_backoff_witness :
    scheduledDelays ((⟨[⟨ReadyState.closed, false⟩], some 0, false, 5, 5, 1000, []⟩ :
        WebSocketService).closeDispatch 0 true).2 = [] ∧
    scheduledDelays ((⟨[⟨ReadyState.connecting, false⟩], some 0, true, 0, 5, 1000, []⟩ :
        WebSocketService).closeDispatch 0 false).2 = [1000] :=
  ⟨((c2_reconnect_backoff 1000).2.2.1 _ 0 true (by decide)).1,
   (c2_reconnect_backoff 1000).2.2.2 _ 0 ⟨ReadyState.connecting, false⟩ rfl rfl
     (by decide)⟩

/-- C5: after `connect; open; unclean close (reconnect scheduled); disconnect`,
the reconnect timer is still pending (`disconnect` never cancels it — the
source discards the `setTimeout` id), and when it fires it calls `connect()`
and constructs a new socket, so an automatic reconnection attempt does fire
after `disconnect()`.  The final conjunct shows the idempotence half of the
claim: a second `disconnect` on the already-nulled service is a no-op. -/
theorem c5_bug :
    (WebSocketService.run (WebSocketService.init 1000)
        [WsEv.connect, WsEv.openDispatch 0, WsEv.closeDispatch 0 false,
         WsEv.disconnect]).1.timers = [1000] ∧
    (WebSocketService.run (WebSocketService.init 1000)
        [WsEv.connect, WsEv.openDispatch 0, WsEv.closeDispatch 0 false,
         WsEv.disconnect, WsEv.timerFire 0]).1.socks.length = 2 ∧
    (WebSocketService.run (WebSocketService.init 1000)
        [WsEv.connect, WsEv.openDispatch 0, WsEv.closeDispatch 0 false,
         WsEv.disconnect, WsEv.timerFire 0]).1.isConnecting = true ∧
    WebSocketService.step
        (WebSocketService.run (WebSocketService.init 1000)
          [WsEv.connect, WsEv.openDispatch 0, WsEv.closeDispatch 0 false,
           WsEv.disconnect]).1 WsEv.disconnect
      = ((WebSocketService.run (WebSocketService.init 1000)
          [WsEv.connect, WsEv.openDispatch 0, WsEv.closeDispatch 0 false,
           WsEv.disconnect]).1, []) := by
  decide

/-- C6: "at most one live socket at any time" fails.  Socket 0 fails
(`error` fires, state CLOSED) and the app calls `connect()` again, creating
socket 1; then socket 0's still-attached `onclose` handler fires uncleanly,
resetting `isConnecting` and scheduling a reconnect; when that timer fires
while socket 1 is still CONNECTING, the gate passes (`isConnecting` false,
current socket not OPEN) and a third socket is created — leaving two live
(CONNECTING) sockets at once. -/
theorem c6_counterexample :
    liveCount (WebSocketService.run (WebSocketService.init 1000)
      [WsEv.connect, WsEv.errorDispatch 0, WsEv.connect,
       WsEv.closeDispatch 0 false, WsEv.timerFire 0]).1 = 2 := by
  decide

/-- C6 (amended): `connect()` while Connecting or Connected is a no-op that
creates no socket and changes nothing, and two consecutive `connect()` calls
create at most one socket; the global at-most-one-live-socket invariant,
however, does not hold (see the counterexample). -/
theorem c6_connect_noop :
    (∀ s : WebSocketService, s.isConnecting = true ∨ s.isConnected = true →
        WebSocketService.step s WsEv.connect = (s, [])) ∧
    (∀ s : WebSocketService,
        ((WebSocketService.step (WebSocketService.step s WsEv.connect).1
            WsEv.connect).1).socks.length ≤ s.socks.length + 1) := by
  constructor
  · intro s h
    show s.connectAction = (s, [])
    unfold WebSocketService.connectAction
    rcases h with h | h <;> simp [h]
  · intro s
    show ((s.connectAction.1.connectAction).1).socks.length ≤ s.socks.length + 1
    unfold WebSocketService.connectAction
    by_cases h : (s.isConnecting || s.isConnected) = true
    · simp [h]
    · simp only [h, Bool.false_eq_true, if_false, if_neg]
      simp [WebSocketService.isConnected]

/-- Witness for C6's amended theorem: after one `connect()` from the fresh
service the state is Connecting, and a second `connect()` is a no-op. -/
theorem c6_connect_noop_witness :
    WebSocketService.step (WebSocketService.step (WebSocketService.init 1000)
        WsEv.connect).1 WsEv.connect
      = ((WebSocketService.step (WebSocketService.init 1000) WsEv.connect).1, []) :=
  c6_connect_noop.1 _ (Or.inl (by decide))

/-- C8: `sendAudio` while disconnected is dropped WITHOUT any warning — the
source's `sendAudio` has no `console.warn` (only `send` does) — refuting the
claim that both drops come with a warning. -/
theorem c8_counterexample :
    (WebSocketService.init 1000).isConnected = false ∧
    WebSocketService.step (WebSocketService.init 1000) (WsEv.sendAudio [0])
      = (WebSocketService.init 1000, []) ∧
    WsOut.warn ∉ (WebSocketService.step (WebSocketService.init 1000)
      (WsEv.sendAudio [0])).2 ∧
    WebSocketService.step (WebSocketService.init 1000) (WsEv.send textType sampleText)
      = (WebSocketService.init 1000, [WsOut.warn]) := by
  decide

/-- C8 (amended): while not Connected, `send` drops the message with a
console warning and `sendAudio` drops it silently; in both cases nothing is
transmitted, nothing is queued, and the whole client state is unchanged. -/
theorem c8_send_drop (s : WebSocketService) (t d : String) (b : List Nat)
    (h : s.isConnected = false) :
    WebSocketService.step s (WsEv.send t d) = (s, [WsOut.warn]) ∧
    WebSocketService.step s (WsEv.sendAudio b) = (s, []) := by
  refine ⟨?_, ?_⟩
  · show s.sendAction t d = (s, [WsOut.warn])
    unfold WebSocketService.sendAction
    simp [h]
  · show s.sendAudioAction b = (s, [])
    unfold WebSocketService.sendAudioAction
    simp [h]

/-- Witness for C8's amended theorem at the fresh (disconnected) service. -/
theorem c8_send_drop_witness :
    WebSocketService.step (WebSocketService.init 1000) (WsEv.send textType sampleText)
      = (WebSocketService.init 1000, [WsOut.warn]) ∧
    WebSocketService.step (WebSocketService.init 1000) (WsEv.sendAudio [1, 2])
      = (WebSocketService.init 1000, []) :=
  c8_send_drop (WebSocketService.init 1000) textType sampleText [1, 2] (by decide)

/-- C4: `stopPlayback` is the identity — it only logs.  Invoked during an
active playback session (one started source), the session is still emitting
and its queued samples are still scheduled afterwards, so playback is neither
stopped nor flushed before the next capture frame. -/
theorem c4_bug :
    (∀ ap : AudioProcessor, ap.stopPlayback = ap) ∧
    (AudioProcessor.mk0.playAudio true).1.playingSources = 1 ∧
    ((AudioProcessor.mk0.playAudio true).1.stopPlayback).playingSources = 1 :=
  ⟨fun _ => rfl, rfl, rfl⟩

/-- C9: the promise `playAudio` returns never rejects; a decode failure is
caught internally, the promise resolves immediately, no source is started,
and any `.then` completion continuation still runs. -/
theorem c9_playAudio_total (ap : AudioProcessor) (decodeOk : Bool) :
    (ap.playAudio decodeOk).2 ≠ PlayResult.rejects ∧
    thenRuns (ap.playAudio decodeOk).2 = true ∧
    (decodeOk = false →
      (ap.playAudio decodeOk).2 = PlayResult.resolvesNow ∧
      (ap.playAudio decodeOk).1.playingSources = ap.playingSources) := by
  unfold AudioProcessor.playAudio thenRuns
  cases decodeOk <;> by_cases h : ap.hasAudioContext <;> simp [h]

/-- Witness for C9 at the fresh processor with a failing decode. -/
theorem c9_playAudio_total_witness :
    (AudioProcessor.mk0.playAudio false).2 = PlayResult.resolvesNow ∧
    (AudioProcessor.mk0.playAudio false).1.playingSources
      = AudioProcessor.mk0.playingSources ∧
    (AudioProcessor.mk0.playAudio false).2 ≠ PlayResult.rejects :=
  ⟨((c9_playAudio_total AudioProcessor.mk0 false).2.2 rfl).1,
   ((c9_playAudio_total AudioProcessor.mk0 false).2.2 rfl).2,
   (c9_playAudio_total AudioProcessor.mk0 false).1⟩

/-- C10: the claim's "after stopRecording" case fails.  `stopRecording` nulls
the processor, stream and context but NOT the analyser or data array, so
after `startRecording; stopRecording` (no capture active) the absence guard
does not apply and `getVolume` returns `min(1, average/128)` of whatever the
analyser currently holds — here `1`, not `0`. -/
theorem c10_counterexample :
    (AudioProcessor.stopRecording
        ((AudioProcessor.mk0.startRecording true).toOption.getD
          AudioProcessor.mk0)).isRecording = false ∧
    (AudioProcessor.stopRecording
        ((AudioProcessor.mk0.startRecording true).toOption.getD
          AudioProcessor.mk0)).hasAnalyser = true ∧
    (AudioProcessor.stopRecording
        ((AudioProcessor.mk0.startRecording true).toOption.getD
          AudioProcessor.mk0)).dataArray ≠ none ∧
    ((AudioProcessor.stopRecording
        ((AudioProcessor.mk0.startRecording true).toOption.getD
          AudioProcessor.mk0)).getVolume (List.replicate 128 255)).2 = 1 := by
  refine ⟨rfl, rfl, by decide, ?_⟩
  show (AudioProcessor.getVolume _ (List.replicate 128 255)).2 = 1
  unfold AudioProcessor.getVolume
  rw [if_neg (by decide)]
  show min 1 (avgOf (List.replicate 128 255) / 128) = 1
  have havg : avgOf (List.replicate 128 255) = 255 := by
    unfold avgOf
    rw [List.sum_replicate, List.length_replicate]
    norm_num
  rw [havg, min_eq_left (by norm_num)]

/-- C10 (amended): `getVolume` returns exactly `0` whenever the analyser or
the data array is absent (e.g. before the first `startRecording`), and for a
nonempty analyser window the result always lies in `[0, 1]`. -/
theorem c10_getVolume (ap : AudioProcessor) (freq : List Nat) :
    (ap.hasAnalyser = false ∨ ap.dataArray = none → (ap.getVolume freq).2 = 0) ∧
    (freq ≠ [] → 0 ≤ (ap.getVolume freq).2 ∧ (ap.getVolume freq).2 ≤ 1) := by
  unfold AudioProcessor.getVolume
  by_cases h : (ap.hasAnalyser = false ∨ ap.dataArray = none)
  · rw [if_pos h]
    exact ⟨fun _ => rfl, fun _ => by norm_num⟩
  · rw [if_neg h]
    refine ⟨fun hc => absurd hc h, fun _ => ⟨?_, min_le_left _ _⟩⟩
    refine le_min (by norm_num) (div_nonneg ?_ (by norm_num))
    unfold avgOf
    positivity

/-- Witness for C10's amended theorem: the fresh processor (no analyser)
reports volume 0, and a ready processor's volume on a nonempty window is in
`[0, 1]`. -/
theorem c10_getVolume_witness :
    (AudioProcessor.mk0.getVolume [3]).2 = 0 ∧
    0 ≤ (({ AudioProcessor.mk0 with hasAnalyser := true, dataArray := some [0] } :
        AudioProcessor).getVolume [3]).2 ∧
    (({ AudioProcessor.mk0 with hasAnalyser := true, dataArray := some [0] } :
        AudioProcessor).getVolume [3]).2 ≤ 1 :=
  ⟨(c10_getVolume AudioProcessor.mk0 [3]).1 (Or.inl rfl),
   ((c10_getVolume _ [3]).2 (by simp)).1,
   ((c10_getVolume _ [3]).2 (by simp)).2⟩

/-! Section: helper lemmas, voice activity detection -/

/-- Step equation: Silent, no pending timer, window above threshold —
immediate `SpeechStart`. -/
theorem detectStep_start_nopend (ap : AudioProcessor) (t : ℚ) (freq : List Nat)
    (hA : ap.hasAnalyser = true) (hD : ap.dataArray ≠ none)
    (hS : ap.isSpeaking = false) (hP : ap.silenceTimeout = none)
    (hAvg : speechDetectionThreshold < avgOf freq) :
    detectStep ap t freq
      = ({ ap with
            dataArray := some freq
            isSpeaking := true
            silenceTimeout := none },
         [(t, VadSig.speechStart)]) := by
  simp [detectStep, fireDue, AudioProcessor.detectSpeech, hP, hS, hA, hD, hAvg]

/-- Step equation: Silent, pending timer not yet due, window above threshold —
`SpeechStart` and the pending timer is cancelled without firing. -/
theorem detectStep_start_pend_later (ap : AudioProcessor) (t : ℚ) (freq : List Nat)
    (d : ℚ) (hA : ap.hasAnalyser = true) (hD : ap.dataArray ≠ none)
    (hS : ap.isSpeaking = false) (hP : ap.silenceTimeout = some d) (hdt : t < d)
    (hAvg : speechDetectionThreshold < avgOf freq) :
    detectStep ap t freq
      = ({ ap with
            dataArray := some freq
            isSpeaking := true
            silenceTimeout := none },
         [(t, VadSig.speechStart)]) := by
  simp [detectStep, fireDue, AudioProcessor.detectSpeech, hP, hS, hA, hD, hAvg,
    not_le.mpr hdt]

/-- Step equation: Silent, pending timer due — it fires (`SpeechEnd` at its
deadline), then the above-threshold window emits `SpeechStart`. -/
theorem detectStep_start_pend_due (ap : AudioProcessor) (t : ℚ) (freq : List Nat)
    (d : ℚ) (hA : ap.hasAnalyser = true) (hD : ap.dataArray ≠ none)
    (hS : ap.isSpeaking = false) (hP : ap.silenceTimeout = some d) (hdt : d ≤ t)
    (hAvg : speechDetectionThreshold < avgOf freq) :
    detectStep ap t freq
      = ({ ap with
            dataArray := some freq
            isSpeaking := true
            silenceTimeout := none },
         [(d, VadSig.speechEnd), (t, VadSig.speechStart)]) := by
  simp [detectStep, fireDue, AudioProcessor.detectSpeech, hP, hS, hA, hD, hAvg, hdt]

/-- Step equation: Silent stays Silent (window below threshold), no pending
timer — nothing happens. -/
theorem detectStep_below_nopend (ap : AudioProcessor) (t : ℚ) (freq : List Nat)
    (hA : ap.hasAnalyser = true) (hD : ap.dataArray ≠ none)
    (hS : ap.isSpeaking = false) (hP : ap.silenceTimeout = none)
    (hAvg : avgOf freq ≤ speechDetectionThreshold) :
    detectStep ap t freq
      = ({ ap with
            dataArray := some freq
            isSpeaking := false
            silenceTimeout := none }, []) := by
  simp [detectStep, fireDue, AudioProcessor.detectSpeech, hP, hS, hA, hD,
    not_lt.mpr hAvg]

/-- Step equation: Silent stays Silent, pending timer not yet due — the
pending timer is carried unchanged. -/
theorem detectStep_below_pend_later (ap : AudioProcessor) (t : ℚ) (freq : List Nat)
    (d : ℚ) (hA : ap.hasAnalyser = true) (hD : ap.dataArray ≠ none)
    (hS : ap.isSpeaking = false) (hP : ap.silenceTimeout = some d) (hdt : t < d)
    (hAvg : avgOf freq ≤ speechDetectionThreshold) :
    detectStep ap t freq
      = ({ ap with
            dataArray := some freq
            isSpeaking := false
            silenceTimeout := some d }, []) := by
  simp [detectStep, fireDue, AudioProcessor.detectSpeech, hP, hS, hA, hD,
    not_lt.mpr hAvg, not_le.mpr hdt]

/-- Step equation: Silent stays Silent, pending timer due — it fires,
emitting `SpeechEnd` at its deadline. -/
theorem detectStep_below_pend_due (ap : AudioProcessor) (t : ℚ) (freq : List Nat)
    (d : ℚ) (hA : ap.hasAnalyser = true) (hD : ap.dataArray ≠ none)
    (hS : ap.isSpeaking = false) (hP : ap.silenceTimeout = some d) (hdt : d ≤ t)
    (hAvg : avgOf freq ≤ speechDetectionThreshold) :
    detectStep ap t freq
      = ({ ap with
            dataArray := some freq
            isSpeaking := false
            silenceTimeout := none }, [(d, VadSig.speechEnd)]) := by
  simp [detectStep, fireDue, AudioProcessor.detectSpeech, hP, hS, hA, hD,
    not_lt.mpr hAvg, hdt]

/-- Step equation: Speaking stays Speaking (window above threshold, no
pending timer) — no event is emitted. -/
theorem detectStep_above_speaking (ap : AudioProcessor) (t : ℚ) (freq : List Nat)
    (hA : ap.hasAnalyser = true) (hD : ap.dataArray ≠ none)
    (hS : ap.isSpeaking = true) (hP : ap.silenceTimeout = none)
    (hAvg : speechDetectionThreshold < avgOf freq) :
    detectStep ap t freq
      = ({ ap with
            dataArray := some freq
            isSpeaking := true
            silenceTimeout := none }, []) := by
  simp [detectStep, fireDue, AudioProcessor.detectSpeech, hP, hS, hA, hD, hAvg]

/-- Step equation: Speaking-to-Silent edge — a `SpeechEnd` timer is scheduled
500 ms ahead, nothing is emitted yet. -/
theorem detectStep_trans_below (ap : AudioProcessor) (t : ℚ) (freq : List Nat)
    (hA : ap.hasAnalyser = true) (hD : ap.dataArray ≠ none)
    (hS : ap.isSpeaking = true) (hP : ap.silenceTimeout = none)
    (hAvg : avgOf freq ≤ speechDetectionThreshold) :
    detectStep ap t freq
      = ({ ap with
            dataArray := some freq
            isSpeaking := false
            silenceTimeout := some (t + 500) }, []) := by
  simp [detectStep, fireDue, AudioProcessor.detectSpeech, hP, hS, hA, hD,
    not_lt.mpr hAvg]

/-- Unfolding equation for `runDetect` on a nonempty trace. -/
theorem runDetect_cons (ap : AudioProcessor) (t : ℚ) (freq : List Nat)
    (rest : List (ℚ × List Nat)) :
    runDetect ap ((t, freq) :: rest)
      = ((runDetect (detectStep ap t freq).1 rest).1,
         (detectStep ap t freq).2 ++ (runDetect (detectStep ap t freq).1 rest).2) :=
  rfl


/-- Soundness of emitted `SpeechEnd` events: over any time-sorted window
trace, a `SpeechEnd` at time `d` stems either from the timer already pending
when the run started (and every window processed before `d` was below
threshold), or from a Speaking-to-Silent transition window in the trace at
time `d - 500` such that every later window before `d` is below threshold. -/
theorem endSound :
    ∀ (tr : List (ℚ × List Nat)) (ap : AudioProcessor),
      ap.hasAnalyser = true → ap.dataArray ≠ none →
      (ap.isSpeaking = true → ap.silenceTimeout = none) →
      List.Pairwise (fun a b => a.1 < b.1) tr →
      ∀ d : ℚ, (d, VadSig.speechEnd) ∈ (runDetect ap tr).2 →
        (∃ d0, ap.silenceTimeout = some d0 ∧ d = d0 ∧
           ∀ u w, (u, w) ∈ tr → u < d → avgOf w ≤ speechDetectionThreshold) ∨
        (∃ t w0, (t, w0) ∈ tr ∧ avgOf w0 ≤ speechDetectionThreshold ∧
           d = t + 500 ∧
           ∀ u w, (u, w) ∈ tr → t < u → u < d →
             avgOf w ≤ speechDetectionThreshold) := by
  intro tr
  induction tr with
  | nil =>
      intro ap _ _ _ _ d hd
      simp [runDetect] at hd
  | cons first rest ih =>
      obtain ⟨t, w⟩ := first
      intro ap hA hD hI hsort d hmem
      rw [List.pairwise_cons] at hsort
      obtain ⟨hlt_rest, hsort_rest⟩ := hsort
      -- lifting a transition-witness found in `rest` to the full trace
      have lift2 : (∃ t0 w0, (t0, w0) ∈ rest ∧
            avgOf w0 ≤ speechDetectionThreshold ∧ d = t0 + 500 ∧
            ∀ u w2, (u, w2) ∈ rest → t0 < u → u < d →
              avgOf w2 ≤ speechDetectionThreshold) →
          (∃ t0 w0, (t0, w0) ∈ (t, w) :: rest ∧
            avgOf w0 ≤ speechDetectionThreshold ∧ d = t0 + 500 ∧
            ∀ u w2, (u, w2) ∈ (t, w) :: rest → t0 < u → u < d →
              avgOf w2 ≤ speechDetectionThreshold) := by
        rintro ⟨t0, w0, hm, hb, hd500, hbet⟩
        refine ⟨t0, w0, List.mem_cons_of_mem _ hm, hb, hd500, ?_⟩
        intro u w2 hu hlt1 hlt2
        rcases List.mem_cons.mp hu with heq | hu2
        · exfalso
          rw [Prod.mk.injEq] at heq
          obtain ⟨rfl, rfl⟩ := heq
          exact absurd hlt1 (not_lt.mpr (le_of_lt (hlt_rest (t0, w0) hm)))
        · exact hbet u w2 hu2 hlt1 hlt2
      cases hs : ap.isSpeaking with
      | true =>
          have hp : ap.silenceTimeout = none := hI hs
          rcases le_or_lt (avgOf w) speechDetectionThreshold with havg | havg
          · -- Speaking-to-Silent transition: timer scheduled at t + 500
            rw [runDetect_cons, detectStep_trans_below ap t w hA hD hs hp havg] at hmem
            simp only [List.nil_append] at hmem
            have hres := ih _ (by simpa using hA) (by simp) (fun h => by simp at h)
              hsort_rest d hmem
            rcases hres with ⟨d1, hpend, hd1, hall⟩ | h2
            · simp only [Option.some.injEq] at hpend
              refine Or.inr ⟨t, w, List.mem_cons_self _ _, havg,
                hd1.trans hpend.symm, ?_⟩
              intro u w2 hu hlt1 hlt2
              rcases List.mem_cons.mp hu with heq | hu2
              · exfalso
                rw [Prod.mk.injEq] at heq
                obtain ⟨rfl, rfl⟩ := heq
                exact absurd hlt1 (lt_irrefl _)
              · exact hall u w2 hu2 hlt2
            · exact Or.inr (lift2 h2)
          · -- still Speaking: nothing emitted by this window
            rw [runDetect_cons, detectStep_above_speaking ap t w hA hD hs hp havg] at hmem
            simp only [List.nil_append] at hmem
            have hres := ih _ (by simpa using hA) (by simp) (fun h => rfl)
              hsort_rest d hmem
            rcases hres with ⟨d1, hpend, -, -⟩ | h2
            · simp at hpend
            · exact Or.inr (lift2 h2)
      | false =>
          cases hp : ap.silenceTimeout with
          | none =>
              rcases le_or_lt (avgOf w) speechDetectionThreshold with havg | havg
              · -- stays Silent, no timer
                rw [runDetect_cons, detectStep_below_nopend ap t w hA hD hs hp havg] at hmem
                simp only [List.nil_append] at hmem
                have hres := ih _ (by simpa using hA) (by simp) (fun h => by simp at h)
                  hsort_rest d hmem
                rcases hres with ⟨d1, hpend, -, -⟩ | h2
                · simp at hpend
                · exact Or.inr (lift2 h2)
              · -- SpeechStart
                rw [runDetect_cons, detectStep_start_nopend ap t w hA hD hs hp havg] at hmem
                rcases List.mem_append.mp hmem with h1 | h2
                · simp at h1
                · have hres := ih _ (by simpa using hA) (by simp) (fun h => rfl)
                    hsort_rest d h2
                  rcases hres with ⟨d1, hpend, -, -⟩ | h3
                  · simp at hpend
                  · exact Or.inr (lift2 h3)
          | some d0 =>
              rcases le_or_lt d0 t with hdue | hdue
              · rcases le_or_lt (avgOf w) speechDetectionThreshold with havg | havg
                · -- pending timer fires, window below
                  rw [runDetect_cons,
                    detectStep_below_pend_due ap t w d0 hA hD hs hp hdue havg] at hmem
                  rcases List.mem_append.mp hmem with h1 | h2
                  · have heq := List.mem_singleton.mp h1
                    rw [Prod.mk.injEq] at heq
                    have hd0 : d = d0 := heq.1
                    refine Or.inl ⟨d0, rfl, hd0, ?_⟩
                    intro u w2 hu hlt1
                    exfalso
                    rw [hd0] at hlt1
                    rcases List.mem_cons.mp hu with heq2 | hu2
                    · rw [Prod.mk.injEq] at heq2
                      obtain ⟨rfl, rfl⟩ := heq2
                      exact absurd hlt1 (not_lt.mpr hdue)
                    · have ht : t < u := hlt_rest (u, w2) hu2
                      exact absurd ht
                        (not_lt.mpr (le_of_lt (lt_of_lt_of_le hlt1 hdue)))
                  · have hres := ih _ (by simpa using hA) (by simp)
                      (fun h => by simp at h) hsort_rest d h2
                    rcases hres with ⟨d1, hpend, -, -⟩ | h3
                    · simp at hpend
                    · exact Or.inr (lift2 h3)
                · -- pending timer fires, then SpeechStart
                  rw [runDetect_cons,
                    detectStep_start_pend_due ap t w d0 hA hD hs hp hdue havg] at hmem
                  rcases List.mem_append.mp hmem with h1 | h2
                  · rcases List.mem_cons.mp h1 with heq | h1b
                    · rw [Prod.mk.injEq] at heq
                      have hd0 : d = d0 := heq.1
                      refine Or.inl ⟨d0, rfl, hd0, ?_⟩
                      intro u w2 hu hlt1
                      exfalso
                      rw [hd0] at hlt1
                      rcases List.mem_cons.mp hu with heq2 | hu2
                      · rw [Prod.mk.injEq] at heq2
                        obtain ⟨rfl, rfl⟩ := heq2
                        exact absurd hlt1 (not_lt.mpr hdue)
                      · have ht : t < u := hlt_rest (u, w2) hu2
                        exact absurd ht
                          (not_lt.mpr (le_of_lt (lt_of_lt_of_le hlt1 hdue)))
                    · simp at h1b
                  · have hres := ih _ (by simpa using hA) (by simp) (fun h => rfl)
                      hsort_rest d h2
                    rcases hres with ⟨d1, hpend, -, -⟩ | h3
                    · simp at hpend
                    · exact Or.inr (lift2 h3)
              · rcases le_or_lt (avgOf w) speechDetectionThreshold with havg | havg
                · -- pending timer not due, window below: timer carried
                  rw [runDetect_cons,
                    detectStep_below_pend_later ap t w d0 hA hD hs hp hdue havg] at hmem
                  simp only [List.nil_append] at hmem
                  have hres := ih _ (by simpa using hA) (by simp)
                    (fun h => by simp at h) hsort_rest d hmem
                  rcases hres with ⟨d1, hpend, hd1, hall⟩ | h2
                  · simp only [Option.some.injEq] at hpend
                    have hd0 : d = d0 := hd1.trans hpend.symm
                    refine Or.inl ⟨d0, rfl, hd0, ?_⟩
                    intro u w2 hu hlt1
                    rcases List.mem_cons.mp hu with heq2 | hu2
                    · rw [Prod.mk.injEq] at heq2
                      obtain ⟨rfl, rfl⟩ := heq2
                      exact havg
                    · exact hall u w2 hu2 hlt1
                  · exact Or.inr (lift2 h2)
                · -- pending timer not due, SpeechStart cancels it
                  rw [runDetect_cons,
                    detectStep_start_pend_later ap t w d0 hA hD hs hp hdue havg] at hmem
                  rcases List.mem_append.mp hmem with h1 | h2
                  · simp at h1
                  · have hres := ih _ (by simpa using hA) (by simp) (fun h => rfl)
                      hsort_rest d h2
                    rcases hres with ⟨d1, hpend, -, -⟩ | h3
                    · simp at hpend
                    · exact Or.inr (lift2 h3)

/-- While Speaking with no pending timer, a run of above-threshold windows
emits nothing (no repeated `SpeechStart`, no `SpeechEnd`) and stays Speaking
with no pending timer. -/
theorem runDetect_above :
    ∀ (tr : List (ℚ × List Nat)) (ap : AudioProcessor),
      ap.hasAnalyser = true → ap.dataArray ≠ none →
      ap.isSpeaking = true → ap.silenceTimeout = none →
      (∀ p ∈ tr, speechDetectionThreshold < avgOf p.2) →
      (runDetect ap tr).2 = [] ∧
      (runDetect ap tr).1.isSpeaking = true ∧
      (runDetect ap tr).1.silenceTimeout = none := by
  intro tr
  induction tr with
  | nil => intro ap _ _ hS hP _; exact ⟨rfl, hS, hP⟩
  | cons first rest ih =>
      obtain ⟨t, w⟩ := first
      intro ap hA hD hS hP hall
      have havg : speechDetectionThreshold < avgOf w :=
        hall (t, w) (List.mem_cons_self _ _)
      rw [runDetect_cons, detectStep_above_speaking ap t w hA hD hS hP havg]
      have hres := ih
        { ap with dataArray := some w, isSpeaking := true, silenceTimeout := none }
        (by simpa using hA) (by simp) rfl rfl
        (fun p hp => hall p (List.mem_cons_of_mem _ hp))
      simpa using hres

/-- C7: (1) on the first above-threshold window from the Silent state,
`SpeechStart` is emitted immediately — at that window, as the only event —
and any pending not-yet-due Silent-declaration timer is cancelled; (2) while
the state stays Speaking over above-threshold windows, no further event is
emitted, so `SpeechStart` fires exactly once per sustained excursion;
(3) every emitted `SpeechEnd` at time `d` stems from a Speaking-to-Silent
transition window at time `d - 500` with every intervening window below
threshold, i.e. only after a continuous below-threshold interval of at least
the 500 ms debounce window; (4) a below-threshold dip followed by resumed
speech within 500 ms emits zero `SpeechEnd` events. -/
theorem c7_vad :
    (∀ (ap : AudioProcessor) (t : ℚ) (freq : List Nat),
        ap.hasAnalyser = true → ap.dataArray ≠ none → ap.isSpeaking = false →
        (∀ d, ap.silenceTimeout = some d → t < d) →
        speechDetectionThreshold < avgOf freq →
        (detectStep ap t freq).2 = [(t, VadSig.speechStart)] ∧
        (detectStep ap t freq).1.silenceTimeout = none) ∧
    (∀ (ap : AudioProcessor) (tr : List (ℚ × List Nat)),
        ap.hasAnalyser = true → ap.dataArray ≠ none → ap.isSpeaking = true →
        ap.silenceTimeout = none →
        (∀ p ∈ tr, speechDetectionThreshold < avgOf p.2) →
        (runDetect ap tr).2 = []) ∧
    (∀ (ap : AudioProcessor) (tr : List (ℚ × List Nat)) (d : ℚ),
        ap.hasAnalyser = true → ap.dataArray ≠ none →
        ap.silenceTimeout = none →
        List.Pairwise (fun a b => a.1 < b.1) tr →
        (d, VadSig.speechEnd) ∈ (runDetect ap tr).2 →
        ∃ t w0, (t, w0) ∈ tr ∧ avgOf w0 ≤ speechDetectionThreshold ∧
          d = t + 500 ∧
          ∀ u w, (u, w) ∈ tr → t < u → u < d →
            avgOf w ≤ speechDetectionThreshold) ∧
    (∀ (ap : AudioProcessor) (t : ℚ) (freq1 : List Nat)
        (mids : List (ℚ × List Nat)) (t2 : ℚ) (freq2 : List Nat),
        ap.hasAnalyser = true → ap.dataArray ≠ none → ap.isSpeaking = true →
        ap.silenceTimeout = none →
        List.Pairwise (fun a b => a.1 < b.1)
          ((t, freq1) :: (mids ++ [(t2, freq2)])) →
        avgOf freq1 ≤ speechDetectionThreshold →
        (∀ p ∈ mids, avgOf p.2 ≤ speechDetectionThreshold) →
        t2 < t + 500 →
        speechDetectionThreshold < avgOf freq2 →
        ((runDetect ap ((t, freq1) :: (mids ++ [(t2, freq2)]))).2.filter
          fun p => decide (p.2 = VadSig.speechEnd)) = []) := by
  have hI_of : ∀ (ap : AudioProcessor), ap.silenceTimeout = none →
      (ap.isSpeaking = true → ap.silenceTimeout = none) := fun _ hP _ => hP
  refine ⟨?_, ?_, ?_, ?_⟩
  · -- (1) immediate SpeechStart, pending timer cancelled
    intro ap t freq hA hD hS hnd hAvg
    cases hp : ap.silenceTimeout with
    | none =>
        rw [detectStep_start_nopend ap t freq hA hD hS hp hAvg]
        exact ⟨rfl, rfl⟩
    | some d =>
        rw [detectStep_start_pend_later ap t freq d hA hD hS hp (hnd d hp) hAvg]
        exact ⟨rfl, rfl⟩
  · -- (2) no events while Speaking over above-threshold windows
    intro ap tr hA hD hS hP hall
    exact (runDetect_above tr ap hA hD hS hP hall).1
  · -- (3) SpeechEnd soundness
    intro ap tr d hA hD hP hsort hmem
    rcases endSound tr ap hA hD (hI_of ap hP) hsort d hmem with ⟨d0, hpend, -, -⟩ | h2
    · rw [hP] at hpend
      exact absurd hpend (by simp)
    · exact h2
  · -- (4) a brief dip emits zero SpeechEnd events
    intro ap t freq1 mids t2 freq2 hA hD hS hP hsort hb1 hbm hlt2 ha2
    rw [List.filter_eq_nil_iff]
    rintro ⟨u, sig⟩ hu hdec
    have hsig : sig = VadSig.speechEnd := of_decide_eq_true hdec
    subst hsig
    rcases endSound _ ap hA hD (hI_of ap hP) hsort u hu with ⟨d0, hpend, -, -⟩ | h2
    · rw [hP] at hpend
      exact absurd hpend (by simp)
    · obtain ⟨t0, w0, hm, hb0, hdeq, hbet⟩ := h2
      rw [List.pairwise_cons] at hsort
      obtain ⟨hhead, htail⟩ := hsort
      have hmem2 : (t2, freq2) ∈ (t, freq1) :: (mids ++ [(t2, freq2)]) :=
        List.mem_cons_of_mem _ (List.mem_append_right _ (List.mem_singleton.mpr rfl))
      rcases List.mem_cons.mp hm with heq | hm2
      · -- transition at the head: the resume window lies inside (t, t + 500)
        rw [Prod.mk.injEq] at heq
        obtain ⟨rfl, rfl⟩ := heq
        have h1 : t0 < t2 := hhead (t2, freq2)
          (List.mem_append_right _ (List.mem_singleton.mpr rfl))
        have h2b : t2 < u := by rw [hdeq]; exact hlt2
        exact absurd (hbet t2 freq2 hmem2 h1 h2b) (not_le.mpr ha2)
      · rcases List.mem_append.mp hm2 with hmid | hlast
        · -- transition inside the dip: the resume window still precedes d
          have h1 : t0 < t2 := by
            rw [List.pairwise_append] at htail
            exact htail.2.2 (t0, w0) hmid (t2, freq2) (List.mem_singleton.mpr rfl)
          have hlt0 : t < t0 := hhead (t0, w0) (List.mem_append_left _ hmid)
          have h2b : t2 < u := by
            rw [hdeq]
            exact lt_trans hlt2 (by linarith)
          exact absurd (hbet t2 freq2 hmem2 h1 h2b) (not_le.mpr ha2)
        · -- the transition cannot be the above-threshold resume window
          have heq := List.mem_singleton.mp hlast
          rw [Prod.mk.injEq] at heq
          obtain ⟨-, rfl⟩ := heq
          exact absurd hb0 (not_le.mpr ha2)

/-- Witness for C7's first conjunct: from a ready Silent processor, the
window `[40]` (mean 40 > 30) at time 0 emits exactly one immediate
`SpeechStart` and leaves no pending timer. -/
theorem c7_vad_witness :
    (detectStep { AudioProcessor.mk0 with
        hasAnalyser := true, dataArray := some (List.replicate 128 0) } 0 [40]).2
      = [(0, VadSig.speechStart)] ∧
    (detectStep { AudioProcessor.mk0 with
        hasAnalyser := true, dataArray := some (List.replicate 128 0) } 0 [40]).1.silenceTimeout
      = none :=
  c7_vad.1 _ 0 [40] rfl (by simp) rfl
    (fun d h => by simp [AudioProcessor.mk0] at h)
    (by norm_num [avgOf, speechDetectionThreshold])
